import Mathlib

/-!
Verification of the `o3d3xx-ros` node (`src/o3d3xx_node.cpp`) against its
natural-language specification.

The node holds one `o3d3xx::Camera` (`cam_`), one `o3d3xx::FrameGrabber`
(`fg_`, the StreamConnection) and one mutex (`fg_mutex_`).  The publishing
loop `Run` and the three administrative service handlers `Dump`, `Config`
and `Rm` contend for that mutex; every administrative handler rebuilds the
frame grabber (`fg_.reset(new o3d3xx::FrameGrabber(this->cam_))`) before a
normal return.

Shallow embedding conventions:
* Every device-side XML-RPC call (`ToJSON`, `FromJSON`, `RequestSession`,
  `SetOperatingMode`, `GetDeviceConfig`, `DeleteApplication`,
  `CancelSession`) can succeed, throw an `o3d3xx::error_t` (a device error
  carrying an integer code and a message), or throw some other
  `std::exception`.  The outcome of each call is an input of the embedded
  handler, of type `DevResult`.
* The frame grabber is represented by its generation number: each
  `fg_.reset(new FrameGrabber(cam_))` increments it.
* A handler run yields a `HandlerOut`: its outcome (`.ok response` for a
  normal return, `.error msg` when a C++ exception escapes the handler),
  the frame-grabber generation after the run, and the ordered trace of
  events (lock acquisition, device calls attempted, frame-grabber reset,
  lock release) the run performed.
-/

namespace O3D3xx

/-- Outcome of a single device-side call made through the `o3d3xx` client
library: normal return, thrown `o3d3xx::error_t` (device error with code
and message), or any other thrown `std::exception` (message only). -/
inductive DevResult (α : Type) where
  | ok (val : α)
  | devErr (code : Int) (msg : String)
  | otherErr (msg : String)
deriving DecidableEq

/-- Observable events of a handler or loop iteration: mutex operations on
`fg_mutex_`, device calls attempted (in order), the frame-grabber rebuild
(`fg_.reset`), and the loop's publish/warn actions. -/
inductive Event where
  | lockFG
  | unlockFG
  | toJSONCall
  | fromJSONCall
  | requestSession
  | setOperatingModeEDIT
  | getDeviceConfigCall
  | deleteApplication (index : Int)
  | cancelSession
  | fgReset
  | waitFrameOk
  | waitFrameTimeout
  | publishFrame
  | warnTimeout
deriving DecidableEq

/-- Result of running one service handler: the outcome (`.error msg` means
a C++ exception escaped the handler body), the frame-grabber generation
after the run, and the event trace. -/
structure HandlerOut (ρ : Type) where
  outcome : Except String ρ
  gen : Nat
  trace : List Event

/-- Response of the `Dump` service (`o3d3xx/Dump.srv`): an integer status
and the configuration JSON string.  ROS message fields default to `0` and
`""`. -/
structure DumpResponse where
  status : Int
  config : String
deriving DecidableEq

/-- Response of the `Config` service: integer status and message. -/
structure ConfigResponse where
  status : Int
  msg : String
deriving DecidableEq

/-- Response of the `Rm` service: integer status and message. -/
structure RmResponse where
  status : Int
  msg : String
deriving DecidableEq

/-- `O3D3xxNode::Dump` (o3d3xx_node.cpp lines 229-246).  Under the lock:
`res.status = 0`; then `try { res.config = this->cam_->ToJSON(); }`
with a single `catch (const o3d3xx::error_t& ex) { res.status = ex.code(); }`
— nothing else is caught, so any other exception escapes the handler and
the trailing `fg_.reset(new FrameGrabber(cam_))` is skipped (the
`lock_guard` still releases the mutex during unwinding). -/
def Dump (toJSONRes : DevResult String) (gen : Nat) : HandlerOut DumpResponse :=
  match toJSONRes with
  | .ok j =>
      ⟨.ok ⟨0, j⟩, gen + 1, [.lockFG, .toJSONCall, .fgReset, .unlockFG]⟩
  | .devErr c _ =>
      ⟨.ok ⟨c, ""⟩, gen + 1, [.lockFG, .toJSONCall, .fgReset, .unlockFG]⟩
  | .otherErr m =>
      ⟨.error m, gen, [.lockFG, .toJSONCall, .unlockFG]⟩

/-- `O3D3xxNode::Config` (o3d3xx_node.cpp lines 259-283).  Under the lock:
`res.status = 0; res.msg = "OK"`; then `try { cam_->FromJSON(req.json); }`
with `catch (o3d3xx::error_t)` setting `(ex.code(), ex.what())` and
`catch (std::exception)` setting `(-1, std_ex.what())`; on every path the
frame grabber is rebuilt before returning.  The argument is the outcome of
the `FromJSON(req.json)` call. -/
def Config (fromJSONRes : DevResult Unit) (gen : Nat) : HandlerOut ConfigResponse :=
  match fromJSONRes with
  | .ok _ =>
      ⟨.ok ⟨0, "OK"⟩, gen + 1, [.lockFG, .fromJSONCall, .fgReset, .unlockFG]⟩
  | .devErr c m =>
      ⟨.ok ⟨c, m⟩, gen + 1, [.lockFG, .fromJSONCall, .fgReset, .unlockFG]⟩
  | .otherErr m =>
      ⟨.ok ⟨-1, m⟩, gen + 1, [.lockFG, .fromJSONCall, .fgReset, .unlockFG]⟩

/-- Outcomes of the device calls `O3D3xxNode::Rm` may attempt, in the
order the handler makes them.  `getDeviceConfig`'s normal return carries
`dev->ActiveApplication()`. -/
structure RmEnv where
  requestSession : DevResult Unit
  setOperatingMode : DevResult Unit
  getDeviceConfig : DevResult Int
  deleteApplication : DevResult Unit
  cancelSession : DevResult Unit
deriving DecidableEq

/-- The `try` block of `O3D3xxNode::Rm` together with its two `catch`
clauses (o3d3xx_node.cpp lines 298-326): if `req.index > 0`, the handler
calls `RequestSession`, `SetOperatingMode(EDIT)`, `GetDeviceConfig`, and —
when the active application differs from `req.index` —
`DeleteApplication(req.index)`; when they coincide it sets
`(-1, "Cannot delete active application!")` without deleting.  A thrown
`o3d3xx::error_t` yields `(ex.code(), ex.what())`, any other
`std::exception` yields `(-1, std_ex.what())`.  Returns the response so
far and the device calls attempted. -/
def rmTry (env : RmEnv) (index : Int) : RmResponse × List Event :=
  if index > 0 then
    match env.requestSession with
    | .devErr c m => (⟨c, m⟩, [.requestSession])
    | .otherErr m => (⟨-1, m⟩, [.requestSession])
    | .ok _ =>
      match env.setOperatingMode with
      | .devErr c m => (⟨c, m⟩, [.requestSession, .setOperatingModeEDIT])
      | .otherErr m => (⟨-1, m⟩, [.requestSession, .setOperatingModeEDIT])
      | .ok _ =>
        match env.getDeviceConfig with
        | .devErr c m =>
            (⟨c, m⟩, [.requestSession, .setOperatingModeEDIT, .getDeviceConfigCall])
        | .otherErr m =>
            (⟨-1, m⟩, [.requestSession, .setOperatingModeEDIT, .getDeviceConfigCall])
        | .ok active =>
          if active ≠ index then
            match env.deleteApplication with
            | .ok _ =>
                (⟨0, "OK"⟩,
                 [.requestSession, .setOperatingModeEDIT, .getDeviceConfigCall,
                  .deleteApplication index])
            | .devErr c m =>
                (⟨c, m⟩,
                 [.requestSession, .setOperatingModeEDIT, .getDeviceConfigCall,
                  .deleteApplication index])
            | .otherErr m =>
                (⟨-1, m⟩,
                 [.requestSession, .setOperatingModeEDIT, .getDeviceConfigCall,
                  .deleteApplication index])
          else
            (⟨-1, "Cannot delete active application!"⟩,
             [.requestSession, .setOperatingModeEDIT, .getDeviceConfigCall])
  else
    (⟨0, "OK"⟩, [])

/-- `O3D3xxNode::Rm` (o3d3xx_node.cpp lines 291-331).  Under the lock:
`res.status = 0; res.msg = "OK"`, then the `try`/`catch` body (`rmTry`),
then — outside any `try` — `cam_->CancelSession()` and
`fg_.reset(new FrameGrabber(cam_))`.  A failure thrown by `CancelSession`
is not caught: it escapes the handler and the rebuild is skipped. -/
def Rm (env : RmEnv) (index : Int) (gen : Nat) : HandlerOut RmResponse :=
  let t := rmTry env index
  match env.cancelSession with
  | .ok _ =>
      ⟨.ok t.1, gen + 1, .lockFG :: t.2 ++ [.cancelSession, .fgReset, .unlockFG]⟩
  | .devErr _ m =>
      ⟨.error m, gen, .lockFG :: t.2 ++ [.cancelSession, .unlockFG]⟩
  | .otherErr m =>
      ⟨.error m, gen, .lockFG :: t.2 ++ [.cancelSession, .unlockFG]⟩

/-- Mutable node state outside the frame grabber, as read or written by the
service handlers: the parameters fixed at construction, the frame id, and
the frame-grabber generation. -/
structure NodeState where
  timeoutMillis : Int
  publishVizImages : Bool
  frameId : String
  fgGen : Nat
deriving DecidableEq

/-- `O3D3xxNode::GetVersion` (o3d3xx_node.cpp lines 208-220): formats
`O3D3XX_LIBRARY_NAME << ": " << major << "." << minor << "." << patch`
into `res.version`.  It takes no lock, makes no device call, and touches
no node field; the embedding returns the response, the node state after
the call, and the (empty) event trace. -/
def GetVersion (libName : String) (vmajor vminor vpatch : Int) (s : NodeState) :
    String × NodeState × List Event :=
  (libName ++ ": " ++ toString vmajor ++ "." ++ toString vminor ++ "."
     ++ toString vpatch, s, [])

/-! ## The publishing loop `O3D3xxNode::Run` -/

/-- Loop-visible state of the node: whether the `while (ros::ok())` loop is
still running, the frame-grabber generation, and counters of the timeout
warnings logged and the frames forwarded to publication. -/
structure LoopState where
  running : Bool
  fgGen : Nat
  warnCount : Nat
  publishedCount : Nat
deriving DecidableEq

/-- One iteration of the body of `while (ros::ok())` in `O3D3xxNode::Run`
(o3d3xx_node.cpp lines 128-199): lock `fg_mutex_`, call
`fg_->WaitForFrame(buff, timeout_millis_)`; on failure unlock, log
`"Timeout waiting for camera!"` and `continue`; on success unlock and
publish the frame's point cloud and images.  `frameReady` is whether
`WaitForFrame` returned a frame within the timeout. -/
def loopIter (frameReady : Bool) (s : LoopState) : LoopState × List Event :=
  if frameReady then
    ({ s with publishedCount := s.publishedCount + 1 },
     [.lockFG, .waitFrameOk, .unlockFG, .publishFrame])
  else
    ({ s with warnCount := s.warnCount + 1 },
     [.lockFG, .waitFrameTimeout, .unlockFG, .warnTimeout])

/-- One scheduling step of the `while (ros::ok())` loop: if the loop is
still running, it checks `ros::ok()` (argument `rosOk`) and either runs one
iteration or terminates; a terminated loop stays terminated. -/
def loopStep (rosOk frameReady : Bool) (s : LoopState) : LoopState :=
  if s.running then
    if rosOk then (loopIter frameReady s).1
    else { s with running := false }
  else s

/-- State of the loop after `n` scheduling steps, where `rosOk k` and
`frames k` give the `ros::ok()` check and the `WaitForFrame` outcome of
step `k`. -/
def loopRun (rosOk frames : Nat → Bool) (s : LoopState) : Nat → LoopState
  | 0 => s
  | n + 1 => loopStep (rosOk n) (frames n) (loopRun rosOk frames s n)

/-- Loop state at node startup: running, with the initial frame grabber. -/
def loopInit : LoopState := ⟨true, 0, 0, 0⟩

/-! ## Device operating-mode state machine

The device itself is an external collaborator (the `o3d3xx` client
library); only its call sites are in `src/`. -/

/-- Operating mode of the camera (spec section 4.5). -/
inductive OperatingMode where
  | RUN
  | EDIT
deriving DecidableEq

/-- Modelled from the spec: device-resident state, missing from `src/`
(the camera is an external collaborator).  Spec section 3 and 4.5: the
DeviceHandle has an operating mode (RUN/EDIT) and an active-session
indicator, and the device stores application profiles identified by an
integer index. -/
structure DeviceState where
  mode : OperatingMode
  sessionActive : Bool
  apps : List Int
deriving DecidableEq

/-- Modelled from the spec: effect of each successful device call on the
device state, missing from `src/`.  Spec section 4.5's state machine:
`RequestSession` opens the administrative session, `SetOperatingMode(EDIT)`
enters EDIT, `DeleteApplication i` removes profile `i`, and
`CancelSession` closes the session and returns the mode to RUN.  Node-local
events (locking, `fg_.reset`, publishing) do not touch the device. -/
def applyCall (d : DeviceState) : Event → DeviceState
  | .requestSession => { d with sessionActive := true }
  | .setOperatingModeEDIT => { d with mode := .EDIT }
  | .deleteApplication i => { d with apps := d.apps.filter (fun j => j ≠ i) }
  | .cancelSession => { d with mode := .RUN, sessionActive := false }
  | _ => d

/-- Device state after applying a trace of events in order. -/
def applyTrace (d : DeviceState) (tr : List Event) : DeviceState :=
  tr.foldl applyCall d

/-! ## Interleaving of the loop with an administrative operation

A small two-thread machine: the loop thread runs one iteration of `Run`
(acquire `fg_mutex_`, `WaitForFrame`, release), the admin thread runs one
administrative handler (acquire `fg_mutex_`, device-side body,
`fg_.reset`, release).  Each scheduler step runs one atomic step of one
thread; a thread whose next step is a blocked lock acquisition simply
stays put.  `WaitForFrame` records the frame-grabber generation it reads
together with whether the administrative handler is mid-body at that
instant. -/

/-- Program counter of the loop thread's single iteration. -/
inductive LoopPC where
  | start
  | locked
  | waited
  | done
deriving DecidableEq

/-- Program counter of the admin thread's single handler run: it acquires
the lock, performs the device-side body, installs the replacement frame
grabber (`fg_.reset`), and releases the lock. -/
inductive AdminPC where
  | start
  | locked
  | body
  | replaced
  | done
deriving DecidableEq

/-- The two threads contending for `fg_mutex_`. -/
inductive Thread where
  | loopT
  | adminT
deriving DecidableEq

/-- State of the two-thread machine: who holds `fg_mutex_`, both program
counters, the frame-grabber generation in the shared slot, and the record
of `WaitForFrame` acquisitions `(generation read, admin mid-operation?)`. -/
structure Sys where
  lockHolder : Option Thread
  loopPC : LoopPC
  adminPC : AdminPC
  gen : Nat
  acquired : List (Nat × Bool)
deriving DecidableEq

/-- The administrative handler is mid-operation: it has acquired the lock
and not yet released it (its body, including the replacement of the
frame grabber, has begun and is not complete). -/
def adminBusy (s : Sys) : Bool :=
  match s.adminPC with
  | .locked => true
  | .body => true
  | .replaced => true
  | _ => false

/-- One atomic step of the loop thread (o3d3xx_node.cpp lines 130-137):
acquire the lock when free, perform `WaitForFrame` (recording the
generation it reads and whether the admin handler is mid-operation),
release the lock. -/
def loopThreadStep (s : Sys) : Sys :=
  match s.loopPC with
  | .start =>
    match s.lockHolder with
    | none => { s with lockHolder := some .loopT, loopPC := .locked }
    | some _ => s
  | .locked =>
    { s with acquired := (s.gen, adminBusy s) :: s.acquired, loopPC := .waited }
  | .waited => { s with lockHolder := none, loopPC := .done }
  | .done => s

/-- One atomic step of the admin thread (the lock-guarded body shared by
`Dump`, `Config` and `Rm`): acquire the lock when free, run the
device-side body, install the replacement frame grabber (`fg_.reset`,
incrementing the generation), release the lock. -/
def adminThreadStep (s : Sys) : Sys :=
  match s.adminPC with
  | .start =>
    match s.lockHolder with
    | none => { s with lockHolder := some .adminT, adminPC := .locked }
    | some _ => s
  | .locked => { s with adminPC := .body }
  | .body => { s with gen := s.gen + 1, adminPC := .replaced }
  | .replaced => { s with lockHolder := none, adminPC := .done }
  | .done => s

/-- One scheduler step: run one atomic step of the chosen thread. -/
def sysStep (t : Thread) (s : Sys) : Sys :=
  match t with
  | .loopT => loopThreadStep s
  | .adminT => adminThreadStep s

/-- Run the machine under a schedule (the list of thread choices). -/
def sysRun (sched : List Thread) (s : Sys) : Sys :=
  sched.foldl (fun st t => sysStep t st) s

/-- Initial state: lock free, both threads at their start, the original
frame grabber (generation 0) in the slot, nothing acquired yet. -/
def sysInit : Sys := ⟨none, .start, .start, 0, []⟩

/-- Frame-grabber generation determined by the admin thread's progress:
`0` until the replacement is installed, `1` afterwards. -/
def genOf : AdminPC → Nat
  | .replaced => 1
  | .done => 1
  | _ => 0

/-- Inductive invariant of the two-thread machine: a thread inside its
critical section holds the lock, the generation tracks the admin thread's
progress, and every recorded acquisition saw a quiescent admin handler and
a fully constructed connection (generation 0 or 1). -/
structure SysInv (s : Sys) : Prop where
  loopHolds : s.loopPC = .locked ∨ s.loopPC = .waited → s.lockHolder = some .loopT
  adminHolds : adminBusy s = true → s.lockHolder = some .adminT
  genEq : s.gen = genOf s.adminPC
  acqOk : ∀ p ∈ s.acquired, p.2 = false ∧ p.1 ≤ 1

/-- The invariant holds initially. -/
theorem sysInv_init : SysInv sysInit := by
  refine ⟨?_, ?_, ?_, ?_⟩ <;> simp [sysInit, adminBusy, genOf]

/-- The generation in the slot is always that of a fully constructed
connection: the original (0) or the one replacement (1). -/
theorem genOf_le_one (a : AdminPC) : genOf a ≤ 1 := by
  cases a <;> simp [genOf]

/-- Every atomic step of either thread preserves the invariant: the mutex
discipline keeps each thread's critical section exclusive, so the
`WaitForFrame` step can only ever record a quiescent admin handler. -/
theorem sysStep_inv (t : Thread) (s : Sys) (h : SysInv s) : SysInv (sysStep t s) := by
  obtain ⟨h1, h2, h3, h4⟩ := h
  obtain ⟨holder, lpc, apc, gen, acq⟩ := s
  cases t
  case loopT =>
    cases lpc
    case start =>
      cases holder
      case none =>
        refine ⟨fun _ => rfl, fun hb => ?_, h3, h4⟩
        exact absurd (h2 hb) (by simp)
      case some th => exact ⟨h1, h2, h3, h4⟩
    case locked =>
      have hold : holder = some .loopT := h1 (Or.inl rfl)
      have hbusy : adminBusy ⟨holder, .locked, apc, gen, acq⟩ = false := by
        cases hb : adminBusy ⟨holder, .locked, apc, gen, acq⟩
        · rfl
        · have e := h2 hb
          rw [hold] at e
          exact absurd e (by simp)
      refine ⟨fun _ => hold, fun hb => h2 hb, h3, ?_⟩
      intro p hp
      rcases List.mem_cons.mp hp with hp | hp
      · subst hp
        refine ⟨hbusy, ?_⟩
        rw [h3]
        exact genOf_le_one apc
      · exact h4 p hp
    case waited =>
      refine ⟨fun hc => absurd hc (by simp [sysStep, loopThreadStep]), fun hb => ?_, h3, h4⟩
      have e1 := h1 (Or.inr rfl)
      have e2 := h2 hb
      rw [e1] at e2
      exact absurd e2 (by simp)
    case done => exact ⟨h1, h2, h3, h4⟩
  case adminT =>
    cases apc
    case start =>
      cases holder
      case none =>
        refine ⟨fun hc => absurd (h1 hc) (by simp), fun _ => rfl, ?_, h4⟩
        simpa [genOf] using h3
      case some th => exact ⟨h1, h2, h3, h4⟩
    case locked =>
      exact ⟨h1, fun _ => h2 rfl, h3, h4⟩
    case body =>
      refine ⟨h1, fun _ => h2 rfl, ?_, h4⟩
      show gen + 1 = 1
      have e : gen = 0 := h3
      omega
    case replaced =>
      refine ⟨fun hc => ?_,
        fun hb => absurd hb (by simp [sysStep, adminThreadStep, adminBusy]), h3, h4⟩
      have e1 := h1 hc
      have e2 := h2 rfl
      rw [e1] at e2
      exact absurd e2 (by simp)
    case done => exact ⟨h1, h2, h3, h4⟩

/-- The invariant holds after any schedule, by induction on the schedule. -/
theorem sysRun_inv (sched : List Thread) (s : Sys) (h : SysInv s) :
    SysInv (sysRun sched s) := by
  induction sched generalizing s with
  | nil => exact h
  | cons t ts ih => exact ih (sysStep t s) (sysStep_inv t s h)

/-! ## The claims -/

/-- Claim C1: for every interleaving (schedule) of one acquisition-loop
iteration with one administrative operation, every frame acquisition the
machine records (`WaitForFrame`, performed at the loop's `.locked` step)
saw a quiescent administrative handler — the handler's lock-guarded body,
which replaces the StreamConnection, had either not begun or had fully
finished (`p.2 = false`) — and read a fully constructed connection: the
original (generation 0) or the complete replacement (generation 1), never
partial state. -/
theorem frame_not_acquired_mid_replacement (sched : List Thread) (p : Nat × Bool)
    (hp : p ∈ (sysRun sched sysInit).acquired) :
    p.2 = false ∧ (p.1 = 0 ∨ p.1 = 1) := by
  have h := (sysRun_inv sched sysInit sysInv_init).acqOk p hp
  refine ⟨h.1, ?_⟩
  have := h.2
  omega

/-- Concrete interleaving exercising C1: the loop thread acquires the lock
and performs `WaitForFrame` before the admin thread moves; it records the
original connection (generation 0) with the admin handler quiescent. -/
theorem frame_not_acquired_mid_replacement_witness :
    ((0, false) : Nat × Bool) ∈ (sysRun [.loopT, .loopT] sysInit).acquired ∧
      ((0, false) : Nat × Bool).2 = false ∧
      (((0, false) : Nat × Bool).1 = 0 ∨ ((0, false) : Nat × Bool).1 = 1) :=
  ⟨by decide, frame_not_acquired_mid_replacement [.loopT, .loopT] (0, false) (by decide)⟩

/-- Claim C2 counterexample: `Dump` catches only `o3d3xx::error_t`
(o3d3xx_node.cpp lines 239-242).  When `ToJSON` throws any other
exception, the exception escapes the handler: `Dump` does not return a
response, the frame-grabber generation is unchanged, and no `fg_.reset`
happens — contradicting the claim that the slot holds a newly constructed
StreamConnection on every exit path of `Dump`. -/
theorem dump_generic_failure_no_rebuild_cex :
    (Dump (.otherErr "bad alloc") 5).outcome = .error "bad alloc" ∧
      (Dump (.otherErr "bad alloc") 5).gen = 5 ∧
      Event.fgReset ∉ (Dump (.otherErr "bad alloc") 5).trace :=
  ⟨rfl, rfl, by decide⟩

/-- Claim C2 (amended): `Config` replaces the frame grabber exactly once
before returning on every exit path — success, device-reported error, or
any other thrown failure; `Dump` replaces it exactly once on the success
and device-error paths, but when `ToJSON` throws anything other than an
`o3d3xx::error_t` the exception escapes `Dump` and the frame grabber is
not replaced. -/
theorem dump_config_rebuild_amended :
    (∀ j gen, (Dump (.ok j) gen).gen = gen + 1 ∧
       (Dump (.ok j) gen).trace.count .fgReset = 1) ∧
    (∀ c m gen, (Dump (.devErr c m) gen).gen = gen + 1 ∧
       (Dump (.devErr c m) gen).trace.count .fgReset = 1) ∧
    (∀ m gen, (Dump (.otherErr m) gen).outcome = .error m ∧
       (Dump (.otherErr m) gen).gen = gen ∧
       (Dump (.otherErr m) gen).trace.count .fgReset = 0) ∧
    (∀ r gen, (Config r gen).gen = gen + 1 ∧
       (Config r gen).trace.count .fgReset = 1 ∧
       ∃ resp, (Config r gen).outcome = .ok resp) := by
  refine ⟨fun j gen => ⟨rfl, rfl⟩, fun c m gen => ⟨rfl, rfl⟩,
    fun m gen => ⟨rfl, rfl, rfl⟩, fun r gen => ?_⟩
  cases r with
  | ok v => exact ⟨rfl, rfl, ⟨0, "OK"⟩, rfl⟩
  | devErr c m => exact ⟨rfl, rfl, ⟨c, m⟩, rfl⟩
  | otherErr m => exact ⟨rfl, rfl, ⟨-1, m⟩, rfl⟩

/-- Claim C3 counterexample: in `Rm`, `cam_->CancelSession()` runs outside
the `try`/`catch` (o3d3xx_node.cpp line 328).  A failure thrown there
propagates out of the handler instead of being converted to a
status/message pair, and the frame-grabber rebuild on line 329 is skipped
— contradicting the claim that no failure propagates out of any
administrative handler and that the rebuild happens on every failing
path. -/
theorem rm_cancel_failure_escapes_cex :
    (Rm ⟨.ok (), .ok (), .ok 1, .ok (), .otherErr "socket closed"⟩ 2 7).outcome
        = .error "socket closed" ∧
      (Rm ⟨.ok (), .ok (), .ok 1, .ok (), .otherErr "socket closed"⟩ 2 7).gen = 7 ∧
      Event.fgReset ∉
        (Rm ⟨.ok (), .ok (), .ok 1, .ok (), .otherErr "socket closed"⟩ 2 7).trace := by
  refine ⟨rfl, rfl, by decide⟩

/-- Claim C3 (amended): `Config` catches every failure of `FromJSON` —
device-reported or otherwise — and converts it to a status/message pair in
the response, rebuilding the connection before returning.  `Rm` does the
same for every failure raised inside its `try` block, but its
`CancelSession` call runs outside the `try`: a failure there propagates
out of the handler and the rebuild is skipped.  `Dump` catches only
device-reported errors (recording just the status — its response has no
message field); any other failure propagates out of `Dump` without a
rebuild. -/
theorem admin_failure_handling_amended :
    (∀ c m gen, (Config (.devErr c m) gen).outcome = .ok ⟨c, m⟩ ∧
       (Config (.devErr c m) gen).gen = gen + 1) ∧
    (∀ m gen, (Config (.otherErr m) gen).outcome = .ok ⟨-1, m⟩ ∧
       (Config (.otherErr m) gen).gen = gen + 1) ∧
    (∀ (env : RmEnv) (index : Int) (gen : Nat),
       (Rm { env with cancelSession := .ok () } index gen).outcome
           = .ok (rmTry { env with cancelSession := .ok () } index).1 ∧
       (Rm { env with cancelSession := .ok () } index gen).gen = gen + 1) ∧
    (∀ (env : RmEnv) (index : Int) (gen : Nat) (m : String),
       (Rm { env with cancelSession := .otherErr m } index gen).outcome = .error m ∧
       (Rm { env with cancelSession := .otherErr m } index gen).gen = gen) ∧
    (∀ c m gen, (Dump (.devErr c m) gen).outcome = .ok ⟨c, ""⟩ ∧
       (Dump (.devErr c m) gen).gen = gen + 1) ∧
    (∀ m gen, (Dump (.otherErr m) gen).outcome = .error m ∧
       (Dump (.otherErr m) gen).gen = gen) :=
  ⟨fun _ _ _ => ⟨rfl, rfl⟩, fun _ _ => ⟨rfl, rfl⟩,
   fun _ _ _ => ⟨rfl, rfl⟩, fun _ _ _ _ => ⟨rfl, rfl⟩,
   fun _ _ _ => ⟨rfl, rfl⟩, fun _ _ => ⟨rfl, rfl⟩⟩

/-- Claim C4: when the requested index is positive and equals the device's
active application (`GetDeviceConfig` returns `ActiveApplication() =
index`), `Rm` responds with status `-1` and message
`"Cannot delete active application!"`, never calls `DeleteApplication`
(for any `deleteApplication` outcome `del`), and still closes the
administrative session: `CancelSession` runs before the handler returns
(here before the `fg_.reset` and the lock release). -/
theorem rm_active_index_rejected (index : Int) (h : 0 < index)
    (del : DevResult Unit) (gen : Nat) :
    (Rm ⟨.ok (), .ok (), .ok index, del, .ok ()⟩ index gen).outcome
        = .ok ⟨-1, "Cannot delete active application!"⟩ ∧
      (∀ i, Event.deleteApplication i ∉
        (Rm ⟨.ok (), .ok (), .ok index, del, .ok ()⟩ index gen).trace) ∧
      (Rm ⟨.ok (), .ok (), .ok index, del, .ok ()⟩ index gen).trace
        = [.lockFG, .requestSession, .setOperatingModeEDIT, .getDeviceConfigCall,
           .cancelSession, .fgReset, .unlockFG] := by
  have ht : rmTry ⟨.ok (), .ok (), .ok index, del, .ok ()⟩ index
      = (⟨-1, "Cannot delete active application!"⟩,
         [.requestSession, .setOperatingModeEDIT, .getDeviceConfigCall]) := by
    simp [rmTry, h]
  refine ⟨?_, ?_, ?_⟩ <;> simp [Rm, ht]

/-- Concrete run exercising C4: all session calls succeed, the active
application is 1 and `Rm` is asked to delete application 1. -/
theorem rm_active_index_rejected_witness :
    (Rm ⟨.ok (), .ok (), .ok 1, .ok (), .ok ()⟩ 1 0).outcome
        = .ok ⟨-1, "Cannot delete active application!"⟩ ∧
      (∀ i, Event.deleteApplication i ∉
        (Rm ⟨.ok (), .ok (), .ok 1, .ok (), .ok ()⟩ 1 0).trace) ∧
      (Rm ⟨.ok (), .ok (), .ok 1, .ok (), .ok ()⟩ 1 0).trace
        = [.lockFG, .requestSession, .setOperatingModeEDIT, .getDeviceConfigCall,
           .cancelSession, .fgReset, .unlockFG] :=
  rm_active_index_rejected 1 (by decide) (.ok ()) 0

/-- Claim C5: `Rm` with a non-positive index skips the whole `try` body
(`if (req.index > 0)`), so it responds with status 0 and message `"OK"`,
opens no session, changes no mode, deletes nothing — and, under the
spec-modelled device state machine, leaves a session-free RUN-mode device
exactly as it was.  (The handler still calls `CancelSession` and rebuilds
the frame grabber on its way out, per lines 328-329.) -/
theorem rm_nonpositive_index_noop (env : RmEnv) (index : Int) (h : index ≤ 0)
    (henv : env.cancelSession = .ok ()) (gen : Nat) (d : DeviceState)
    (hmode : d.mode = .RUN) (hsession : d.sessionActive = false) :
    (Rm env index gen).outcome = .ok ⟨0, "OK"⟩ ∧
      (Rm env index gen).trace = [.lockFG, .cancelSession, .fgReset, .unlockFG] ∧
      Event.requestSession ∉ (Rm env index gen).trace ∧
      Event.setOperatingModeEDIT ∉ (Rm env index gen).trace ∧
      (∀ i, Event.deleteApplication i ∉ (Rm env index gen).trace) ∧
      applyTrace d (Rm env index gen).trace = d := by
  have hnp : ¬ index > 0 := not_lt.mpr h
  have ht : rmTry env index = (⟨0, "OK"⟩, []) := by simp [rmTry, hnp]
  obtain ⟨dm, ds, da⟩ := d
  refine ⟨?_, ?_, ?_, ?_, ?_, ?_⟩ <;>
    simp_all [Rm, ht, applyTrace, applyCall]

/-- Concrete run exercising C5: index 0 against a RUN-mode, session-free
device holding applications 1 and 2. -/
theorem rm_nonpositive_index_noop_witness :
    (Rm ⟨.ok (), .ok (), .ok 1, .ok (), .ok ()⟩ 0 3).outcome = .ok ⟨0, "OK"⟩ ∧
      (Rm ⟨.ok (), .ok (), .ok 1, .ok (), .ok ()⟩ 0 3).trace
        = [.lockFG, .cancelSession, .fgReset, .unlockFG] ∧
      Event.requestSession ∉ (Rm ⟨.ok (), .ok (), .ok 1, .ok (), .ok ()⟩ 0 3).trace ∧
      Event.setOperatingModeEDIT ∉
        (Rm ⟨.ok (), .ok (), .ok 1, .ok (), .ok ()⟩ 0 3).trace ∧
      (∀ i, Event.deleteApplication i ∉
        (Rm ⟨.ok (), .ok (), .ok 1, .ok (), .ok ()⟩ 0 3).trace) ∧
      applyTrace ⟨.RUN, false, [1, 2]⟩
        (Rm ⟨.ok (), .ok (), .ok 1, .ok (), .ok ()⟩ 0 3).trace
        = ⟨.RUN, false, [1, 2]⟩ :=
  rm_nonpositive_index_noop ⟨.ok (), .ok (), .ok 1, .ok (), .ok ()⟩ 0 (by decide)
    rfl 3 ⟨.RUN, false, [1, 2]⟩ rfl rfl

/-- Claim C6: `Config` responds with status 0 and `"OK"` when `FromJSON`
succeeds; with the device error's own code and message when `FromJSON`
throws an `o3d3xx::error_t` (the code is preserved, never collapsed to
-1); and with status -1 and the failure's message on any other thrown
failure. -/
theorem config_status_mapping :
    (∀ gen, Config (.ok ()) gen
        = ⟨.ok ⟨0, "OK"⟩, gen + 1, [.lockFG, .fromJSONCall, .fgReset, .unlockFG]⟩) ∧
    (∀ c m gen, Config (.devErr c m) gen
        = ⟨.ok ⟨c, m⟩, gen + 1, [.lockFG, .fromJSONCall, .fgReset, .unlockFG]⟩) ∧
    (∀ m gen, Config (.otherErr m) gen
        = ⟨.ok ⟨-1, m⟩, gen + 1, [.lockFG, .fromJSONCall, .fgReset, .unlockFG]⟩) :=
  ⟨fun _ => rfl, fun _ _ _ => rfl, fun _ _ => rfl⟩

/-- Claim C7: `Rm` with a positive, non-active index whose device calls
all succeed performs, in order: `RequestSession`, `SetOperatingMode(EDIT)`,
`GetDeviceConfig`, exactly one `DeleteApplication(index)`, then
`CancelSession`, and only then the frame-grabber rebuild (`fg_.reset`) —
the session cancel precedes the connection rebuild in the trace. -/
theorem rm_delete_ordering (index active : Int) (h : 0 < index)
    (hne : active ≠ index) (gen : Nat) :
    (Rm ⟨.ok (), .ok (), .ok active, .ok (), .ok ()⟩ index gen).outcome
        = .ok ⟨0, "OK"⟩ ∧
      (Rm ⟨.ok (), .ok (), .ok active, .ok (), .ok ()⟩ index gen).trace
        = [.lockFG, .requestSession, .setOperatingModeEDIT, .getDeviceConfigCall,
           .deleteApplication index, .cancelSession, .fgReset, .unlockFG] ∧
      (Rm ⟨.ok (), .ok (), .ok active, .ok (), .ok ()⟩ index gen).trace.count
          (.deleteApplication index) = 1 ∧
      (Rm ⟨.ok (), .ok (), .ok active, .ok (), .ok ()⟩ index gen).gen = gen + 1 := by
  have ht : rmTry ⟨.ok (), .ok (), .ok active, .ok (), .ok ()⟩ index
      = (⟨0, "OK"⟩,
         [.requestSession, .setOperatingModeEDIT, .getDeviceConfigCall,
          .deleteApplication index]) := by
    simp [rmTry, h, hne]
  refine ⟨?_, ?_, ?_, ?_⟩ <;> simp [Rm, ht, List.count_cons]

/-- Concrete run exercising C7: delete application 2 while application 1
is active. -/
theorem rm_delete_ordering_witness :
    (Rm ⟨.ok (), .ok (), .ok 1, .ok (), .ok ()⟩ 2 0).outcome = .ok ⟨0, "OK"⟩ ∧
      (Rm ⟨.ok (), .ok (), .ok 1, .ok (), .ok ()⟩ 2 0).trace
        = [.lockFG, .requestSession, .setOperatingModeEDIT, .getDeviceConfigCall,
           .deleteApplication 2, .cancelSession, .fgReset, .unlockFG] ∧
      (Rm ⟨.ok (), .ok (), .ok 1, .ok (), .ok ()⟩ 2 0).trace.count
          (.deleteApplication 2) = 1 ∧
      (Rm ⟨.ok (), .ok (), .ok 1, .ok (), .ok ()⟩ 2 0).gen = 0 + 1 :=
  rm_delete_ordering 2 1 (by decide) (by decide) 0

/-- No scheduling step of the publishing loop ever changes the
frame-grabber generation: neither a frame, nor a timeout, nor the
`ros::ok()` exit touch `fg_`. -/
theorem loopStep_fgGen (rosOk frameReady : Bool) (s : LoopState) :
    (loopStep rosOk frameReady s).fgGen = s.fgGen := by
  obtain ⟨r, g, w, p⟩ := s
  cases r <;> cases rosOk <;> cases frameReady <;> simp [loopStep, loopIter]

/-- The loop preserves the frame-grabber generation over any run. -/
theorem loopRun_fgGen (rosOk frames : Nat → Bool) (s : LoopState) (n : Nat) :
    (loopRun rosOk frames s n).fgGen = s.fgGen := by
  induction n with
  | zero => rfl
  | succ n ih => rw [loopRun, loopStep_fgGen]; exact ih

/-- Claim C8: a timed-out iteration of `Run` releases the lock, then logs
the warning, and leaves everything except the warning counter unchanged
(first conjunct: the unlock event precedes the warning event and no
`fgReset` occurs).  The loop never changes the frame-grabber generation
under any outcome sequence (second conjunct), and while `ros::ok()` stays
true a permanently timing-out camera produces one warning per iteration
with the loop still running after every `n` — no backoff, no iteration
cap, no termination on timeout (third conjunct). -/
theorem loop_timeout_no_backoff :
    (∀ s, loopIter false s
        = ({ s with warnCount := s.warnCount + 1 },
           [.lockFG, .waitFrameTimeout, .unlockFG, .warnTimeout])) ∧
    (∀ rosOk frames s n, (loopRun rosOk frames s n).fgGen = s.fgGen) ∧
    (∀ n, loopRun (fun _ => true) (fun _ => false) loopInit n
        = ⟨true, 0, n, 0⟩) := by
  refine ⟨fun s => rfl, loopRun_fgGen, fun n => ?_⟩
  induction n with
  | zero => rfl
  | succ n ih => simp [loopRun, ih, loopStep, loopIter]

/-- Claim C9: `GetVersion` takes no lock (its event trace is empty, in
particular free of `lockFG`), reads no shared mutable state, leaves every
node field unchanged, and returns the formatted library version string. -/
theorem getVersion_pure (libName : String) (a b c : Int) (s : NodeState) :
    (GetVersion libName a b c s).2.1 = s ∧
      (GetVersion libName a b c s).2.2 = [] ∧
      Event.lockFG ∉ (GetVersion libName a b c s).2.2 ∧
      (GetVersion libName a b c s).1
        = libName ++ ": " ++ toString a ++ "." ++ toString b ++ "." ++ toString c :=
  ⟨rfl, rfl, by simp [GetVersion], rfl⟩

/-- Claim C10: when `ToJSON` throws an `o3d3xx::error_t`, `Dump` returns
normally with status `ex.code()` and the response's `config` field still
at its ROS-message default `""` — the assignment `res.config = ...` never
ran, so no partially built document is returned (and the frame grabber is
still rebuilt). -/
theorem dump_device_error_default_config (c : Int) (m : String) (gen : Nat) :
    Dump (.devErr c m) gen
      = ⟨.ok ⟨c, ""⟩, gen + 1, [.lockFG, .toJSONCall, .fgReset, .unlockFG]⟩ :=
  rfl

end O3D3xx
